import Mathlib

/-!
Verification of the docker-connector resolution-and-handoff workflow
(src/main.go) against its natural-language specification.

The remote ECS control plane is modelled as an oracle (`ECSApi`): each
read-only operation returns `none` when the underlying API call errors
(`err != nil` in Go) and `some l` when it returns the result list `l`.
The two calls to `rand.Intn n` (one per resolver that selects randomly)
are modelled by injected numbers `rTask`, `rInst`, used as `r % n`, which
ranges over exactly the indices `rand.Intn n` can produce.  Every remote
call, session launch and backoff sleep is recorded in an explicit trace
(`List Call`) so that claims about which lookups happen on which attempt
are statable.
-/

namespace DockerConnector

/-- A container inside an ECS task: its name and runtime identifier
(fields `Name` and `RuntimeId` of the AWS SDK container type as used in
`getContainerID`). -/
structure Container where
  name : String
  runtimeId : String
deriving DecidableEq, Repr

/-- The task details consumed from `DescribeTasks`: the container
instance ARN and the container list (the only fields `main.go` reads). -/
structure TaskDetail where
  containerInstanceArn : String
  containers : List Container
deriving DecidableEq, Repr

/-- A container instance as consumed from `DescribeContainerInstances`:
only the `Ec2InstanceId` field is read. -/
structure HostInstance where
  ec2InstanceId : String
deriving DecidableEq, Repr

/-- Oracle for the ECS control plane.  `none` models a failed API call
(`err != nil`); `some l` models a successful call returning list `l`.
`listTasks` takes (cluster, service); `describeTasks` takes
(cluster, taskArn); `describeContainerInstances` takes
(cluster, containerInstanceArn). -/
structure ECSApi where
  listTasks : String → String → Option (List String)
  describeTasks : String → String → Option (List TaskDetail)
  describeContainerInstances : String → String → Option (List HostInstance)

/-- Observable effects of one run: remote calls, the session launch with
its full command line, and backoff sleeps (seconds). -/
inductive Call where
  | listTasks (cluster service : String)
  | describeTasks (cluster taskArn : String)
  | describeContainerInstances (cluster arn : String)
  | startSession (cmd : List String)
  | sleep (seconds : Nat)
deriving DecidableEq, Repr

/-- Error of `getECSTask` when `ListTasks` fails or returns no task ARNs:
`fmt.Errorf("no running tasks found for service %s", serviceName)`. -/
def noRunningTasksErr (serviceName : String) : String :=
  "no running tasks found for service " ++ serviceName

/-- Error of `getECSTask` / `getContainerID` when `DescribeTasks` fails or
returns no tasks: `fmt.Errorf("could not describe the ECS task")`. -/
def describeTaskErr : String := "could not describe the ECS task"

/-- Error of `getEC2InstanceID` when `DescribeContainerInstances` fails or
returns no instances: `fmt.Errorf("could not describe container instance")`. -/
def describeContainerInstanceErr : String := "could not describe container instance"

/-- Error message of the dead second length check in `getEC2InstanceID`
(unreachable in the Go source, kept for fidelity):
`fmt.Errorf("no container instances found for cluster %s", clusterName)`. -/
def noContainerInstancesErr (clusterName : String) : String :=
  "no container instances found for cluster " ++ clusterName

/-- Error of `getContainerID` when no container name matches:
`fmt.Errorf("no container named %s found in task", containerName)`. -/
def containerNotFoundErr (containerName : String) : String :=
  "no container named " ++ containerName ++ " found in task"

/-- `getECSTask` from src/main.go, with its call trace.  Mirrors the Go
control flow: `ListTasks`; on error or empty ARN list return the
no-running-tasks error (the second `len == 0` check in the source is dead
and folds into the same branch); otherwise select
`TaskArns[rand.Intn(len)]` (modelled as index `rTask % length`), then
`DescribeTasks` on the selected ARN; on error or empty result return the
describe error; otherwise return the selected ARN and
`Tasks[0].ContainerInstanceArn`. -/
def getECSTaskT (api : ECSApi) (clusterName serviceName : String) (rTask : Nat) :
    List Call × Except String (String × String) :=
  match api.listTasks clusterName serviceName with
  | none =>
      ([Call.listTasks clusterName serviceName],
       Except.error (noRunningTasksErr serviceName))
  | some taskArns =>
    if h : taskArns.length = 0 then
      ([Call.listTasks clusterName serviceName],
       Except.error (noRunningTasksErr serviceName))
    else
      let taskArn := taskArns.get ⟨rTask % taskArns.length,
        Nat.mod_lt _ (Nat.pos_of_ne_zero h)⟩
      ([Call.listTasks clusterName serviceName,
        Call.describeTasks clusterName taskArn],
       match api.describeTasks clusterName taskArn with
       | none => Except.error describeTaskErr
       | some [] => Except.error describeTaskErr
       | some (t :: _) => Except.ok (taskArn, t.containerInstanceArn))

/-- Result of `getECSTask` (trace dropped). -/
def getECSTask (api : ECSApi) (clusterName serviceName : String) (rTask : Nat) :
    Except String (String × String) :=
  (getECSTaskT api clusterName serviceName rTask).2

/-- `getEC2InstanceID` from src/main.go, with its call trace.
`DescribeContainerInstances`; on error or empty list return the
could-not-describe error; the source's second `len == 0` check (with the
distinct `noContainerInstancesErr` message) is unreachable and kept as a
dead branch; otherwise select `ContainerInstances[rand.Intn(len)]`
(index `rInst % length`) and return its `Ec2InstanceId`. -/
def getEC2InstanceIDT (api : ECSApi) (clusterName containerInstanceArn : String)
    (rInst : Nat) : List Call × Except String String :=
  ([Call.describeContainerInstances clusterName containerInstanceArn],
   match api.describeContainerInstances clusterName containerInstanceArn with
   | none => Except.error describeContainerInstanceErr
   | some instances =>
     if h : instances.length = 0 then
       Except.error describeContainerInstanceErr
     else if instances.length = 0 then
       Except.error (noContainerInstancesErr clusterName)
     else
       Except.ok ((instances.get ⟨rInst % instances.length,
         Nat.mod_lt _ (Nat.pos_of_ne_zero h)⟩).ec2InstanceId))

/-- Result of `getEC2InstanceID` (trace dropped). -/
def getEC2InstanceID (api : ECSApi) (clusterName containerInstanceArn : String)
    (rInst : Nat) : Except String String :=
  (getEC2InstanceIDT api clusterName containerInstanceArn rInst).2

/-- The `for _, container := range ... { if *container.Name == containerName ... }`
scan of `getContainerID`: first container whose name equals the supplied
name wins; otherwise the container-not-found error. -/
def findContainerID (containers : List Container) (containerName : String) :
    Except String String :=
  match containers with
  | [] => Except.error (containerNotFoundErr containerName)
  | c :: rest =>
    if c.name = containerName then Except.ok c.runtimeId
    else findContainerID rest containerName

/-- `getContainerID` from src/main.go, with its call trace: re-fetch the
task via `DescribeTasks`; on error or empty result return the describe
error; otherwise scan `Tasks[0].Containers` for the name. -/
def getContainerIDT (api : ECSApi) (clusterName taskArn containerName : String) :
    List Call × Except String String :=
  ([Call.describeTasks clusterName taskArn],
   match api.describeTasks clusterName taskArn with
   | none => Except.error describeTaskErr
   | some [] => Except.error describeTaskErr
   | some (t :: _) => findContainerID t.containers containerName)

/-- Result of `getContainerID` (trace dropped). -/
def getContainerID (api : ECSApi) (clusterName taskArn containerName : String) :
    Except String String :=
  (getContainerIDT api clusterName taskArn containerName).2

/-- The `--parameters` JSON of the SSM command built in `startSSMSession`. -/
def ssmParameters (containerID : String) : String :=
  "\x7b\"command\":[\"sudo docker exec -it " ++ containerID ++ " bash\"]\x7d"

/-- The command line `ssmCmd` built by `startSSMSession`: the fixed
`aws ssm start-session` invocation, with `--profile <p>` appended exactly
when the `profile *string` argument is non-nil (`some p`). -/
def ssmCommand (instanceID containerID : String) (profile : Option String)
    (region : String) : List String :=
  let base := ["aws", "ssm", "start-session",
    "--target", instanceID,
    "--document-name", "AWS-StartInteractiveCommand",
    "--parameters", ssmParameters containerID,
    "--region", region]
  match profile with
  | none => base
  | some p => base ++ ["--profile", p]

/-- Which stage of an attempt failed, carrying the Go error message for
the resolver stages.  `main` formats its fatal log lines from these. -/
inductive AttemptError where
  | taskErr (msg : String)
  | instanceErr (msg : String)
  | containerErr (msg : String)
  | sessionErr
deriving DecidableEq, Repr

/-- Environment of one loop iteration: the control-plane oracle, the two
per-call random draws (`rand.Seed` is called before each `rand.Intn`, so
each attempt and each resolver gets a fresh draw), and the exit status of
the external `aws ssm start-session` process (`true` = exit 0). -/
structure AttemptEnv where
  api : ECSApi
  rTask : Nat
  rInst : Nat
  ssmOk : Bool

/-- The caller-level inputs threaded through `main` into every attempt. -/
structure Params where
  clusterName : String
  serviceName : String
  containerName : String
  profile : Option String
  region : String

/-- One iteration of `main`'s retry loop, body only (no sleep): run
`getECSTask`, `getEC2InstanceID`, `getContainerID` in sequence, stopping
at the first error, then launch the SSM session with the freshly resolved
instance and container identifiers.  Returns the trace of calls and
either the resolved (taskArn, instanceID, containerID) on a successful
launch or the stage that failed. -/
def runAttempt (env : AttemptEnv) (p : Params) :
    List Call × Except AttemptError (String × String × String) :=
  match getECSTaskT env.api p.clusterName p.serviceName env.rTask with
  | (cs1, Except.error e) => (cs1, Except.error (AttemptError.taskErr e))
  | (cs1, Except.ok (taskArn, containerInstanceArn)) =>
    match getEC2InstanceIDT env.api p.clusterName containerInstanceArn env.rInst with
    | (cs2, Except.error e) => (cs1 ++ cs2, Except.error (AttemptError.instanceErr e))
    | (cs2, Except.ok instanceID) =>
      match getContainerIDT env.api p.clusterName taskArn p.containerName with
      | (cs3, Except.error e) =>
          (cs1 ++ cs2 ++ cs3, Except.error (AttemptError.containerErr e))
      | (cs3, Except.ok containerID) =>
          (cs1 ++ cs2 ++ cs3 ++
            [Call.startSession (ssmCommand instanceID containerID p.profile p.region)],
           if env.ssmOk then Except.ok (taskArn, instanceID, containerID)
           else Except.error AttemptError.sessionErr)

/-- `maxRetries := 3` in `main`. -/
def maxRetries : Nat := 3

/-- `backoffDelay := time.Second * 5` in `main`, in seconds. -/
def backoffSeconds : Nat := 5

/-- The post-loop fatal message
`log.Fatalf("Failed to start SSM session after %d attempts.", maxRetries)`. -/
def retriesExhaustedMsg : String :=
  "Failed to start SSM session after 3 attempts."

/-- The fatal message `main` emits when the final attempt fails: resolver
failures hit their stage-specific `log.Fatalf(...Maximum retries reached.)`
inside the loop; a session-launch failure on the last attempt falls out of
the loop and hits the post-loop `log.Fatalf`. -/
def finalFatalMsg : AttemptError → String
  | AttemptError.taskErr m =>
      "Error getting ECS task: " ++ m ++ ". Maximum retries reached."
  | AttemptError.instanceErr m =>
      "Error getting EC2 instance ID: " ++ m ++ ". Maximum retries reached."
  | AttemptError.containerErr m =>
      "Error getting container ID: " ++ m ++ ". Maximum retries reached."
  | AttemptError.sessionErr => retriesExhaustedMsg

/-- Terminal outcome of `main`: normal termination after a successful
session, or `log.Fatalf` (non-zero exit) with the logged message. -/
inductive MainOutcome where
  | success
  | fatal (msg : String)
deriving DecidableEq, Repr

/-- `main`'s `for i := 0; i < maxRetries; i++` loop, over the list of
remaining attempt indices (a singleton tail is the `i == maxRetries-1`
case).  Success breaks out of the loop; any failure on a non-final
attempt sleeps the fixed backoff and continues with the next index; any
failure on the final attempt is fatal.  The `[]` case is the loop
exiting with `retrySuccess == false` (reachable only if the loop runs
zero iterations). -/
def retryOver (envs : Nat → AttemptEnv) (p : Params) :
    List Nat → List Call × MainOutcome
  | [] => ([], MainOutcome.fatal retriesExhaustedMsg)
  | [i] =>
    match runAttempt (envs i) p with
    | (cs, Except.ok _) => (cs, MainOutcome.success)
    | (cs, Except.error e) => (cs, MainOutcome.fatal (finalFatalMsg e))
  | i :: j :: rest =>
    match runAttempt (envs i) p with
    | (cs, Except.ok _) => (cs, MainOutcome.success)
    | (cs, Except.error _) =>
      let next := retryOver envs p (j :: rest)
      (cs ++ Call.sleep backoffSeconds :: next.1, next.2)

/-- The whole retry phase of `main`: attempts `0, 1, ..., maxRetries-1`. -/
def runRetryLoop (envs : Nat → AttemptEnv) (p : Params) : List Call × MainOutcome :=
  retryOver envs p (List.range maxRetries)

/-- `region := "eu-west-2"`, hardcoded in `main`. -/
def mainRegion : String := "eu-west-2"

/-- `main` after flag parsing and credential validation.  `profileFlag` is
the value of the `--profile` flag (`""` when the caller did not supply
one).  `flag.String` returns a pointer that is never nil, and `main`
passes that pointer straight to `startSSMSession`, so every attempt runs
with `profile = some profileFlag`. -/
def runMain (envs : Nat → AttemptEnv)
    (clusterName serviceName containerName profileFlag : String) :
    List Call × MainOutcome :=
  runRetryLoop envs
    { clusterName := clusterName, serviceName := serviceName,
      containerName := containerName, profile := some profileFlag,
      region := mainRegion }

/-- Is this call a backoff sleep? -/
def isSleep : Call → Bool
  | Call.sleep _ => true
  | _ => false

/-- Is this call a `ListTasks` invocation (one per attempt, so counting
them counts attempts)? -/
def isListTasks : Call → Bool
  | Call.listTasks _ _ => true
  | _ => false

/-- The backoff sleeps occurring in a trace, in order. -/
def sleepCalls (cs : List Call) : List Call := cs.filter isSleep

/-- Number of `ListTasks` calls in a trace = number of attempts started. -/
def listTasksCount (cs : List Call) : Nat := (cs.filter isListTasks).length

/-- Happy-path control plane for concrete witnesses: one running task
with a single container named "app" on one host instance. -/
def demoApi : ECSApi where
  listTasks := fun _ _ => some ["task-1"]
  describeTasks := fun _ _ =>
    some [{ containerInstanceArn := "ci-arn-1",
            containers := [{ name := "app", runtimeId := "rt-123" }] }]
  describeContainerInstances := fun _ _ => some [{ ec2InstanceId := "i-0abc" }]

/-- Control plane with an empty running-task list (other calls fail). -/
def emptyListApi : ECSApi where
  listTasks := fun _ _ => some []
  describeTasks := fun _ _ => none
  describeContainerInstances := fun _ _ => none

/-- Control plane whose every call fails at the transport level. -/
def failApi : ECSApi where
  listTasks := fun _ _ => none
  describeTasks := fun _ _ => none
  describeContainerInstances := fun _ _ => none

/-- Control plane whose every call succeeds with an empty result list. -/
def emptyApi : ECSApi where
  listTasks := fun _ _ => some []
  describeTasks := fun _ _ => some []
  describeContainerInstances := fun _ _ => some []

/-- Attempt environment in which everything succeeds. -/
def demoEnv : AttemptEnv where
  api := demoApi
  rTask := 0
  rInst := 0
  ssmOk := true

/-- Attempt environment whose task listing is empty, so every attempt
fails at the first resolver. -/
def failEnv : AttemptEnv where
  api := emptyListApi
  rTask := 0
  rInst := 0
  ssmOk := true

/-- Caller inputs used by the concrete witnesses (the spec's example
scenario: cluster "prod", service "web", container "app"). -/
def demoParams : Params where
  clusterName := "prod"
  serviceName := "web"
  containerName := "app"
  profile := some ""
  region := "eu-west-2"

/-- Task with several containers, two of them sharing the name "app",
to witness first-match selection in the container resolver. -/
def demoTaskMulti : TaskDetail where
  containerInstanceArn := "ci-arn-1"
  containers := [{ name := "web", runtimeId := "rt-9" },
                 { name := "app", runtimeId := "rt-1" },
                 { name := "app", runtimeId := "rt-2" }]

/-- Control plane serving `demoTaskMulti`. -/
def multiApi : ECSApi where
  listTasks := fun _ _ => some ["task-1"]
  describeTasks := fun _ _ => some [demoTaskMulti]
  describeContainerInstances := fun _ _ => some [{ ec2InstanceId := "i-0abc" }]

/-- Environments failing on attempts 0 and 1 and succeeding on attempt 2. -/
def mixedEnvs (i : Nat) : AttemptEnv := if i < 2 then failEnv else demoEnv

/-- Environments agreeing with `fun _ => demoEnv` on attempts 0, 1, 2
but differing beyond them. -/
def altEnvs (i : Nat) : AttemptEnv := if i < 3 then demoEnv else failEnv

theorem listTasksCount_append (xs ys : List Call) :
    listTasksCount (xs ++ ys) = listTasksCount xs + listTasksCount ys := by
  simp [listTasksCount, List.filter_append]

theorem sleepCalls_append (xs ys : List Call) :
    sleepCalls (xs ++ ys) = sleepCalls xs ++ sleepCalls ys := by
  simp [sleepCalls, List.filter_append]

/-- The task resolver's trace is the `ListTasks` call, followed by a
`DescribeTasks` call on the branch that reaches the selection. -/
theorem getECSTaskT_shape (api : ECSApi) (c s : String) (r : Nat) :
    (getECSTaskT api c s r).1 = [Call.listTasks c s] ∨
    ∃ t, (getECSTaskT api c s r).1 = [Call.listTasks c s, Call.describeTasks c t] := by
  unfold getECSTaskT
  repeat' split
  all_goals simp

/-- The host resolver's trace is its one `DescribeContainerInstances`
call, and its result is `getEC2InstanceID`. -/
theorem getEC2InstanceIDT_eq (api : ECSApi) (c arn : String) (r : Nat) :
    getEC2InstanceIDT api c arn r =
      ([Call.describeContainerInstances c arn], getEC2InstanceID api c arn r) := rfl

/-- The container resolver's trace is its one `DescribeTasks` call, and
its result is `getContainerID`. -/
theorem getContainerIDT_eq (api : ECSApi) (c t n : String) :
    getContainerIDT api c t n =
      ([Call.describeTasks c t], getContainerID api c t n) := rfl

/-- Every attempt starts exactly one `ListTasks` call and performs no
sleep of its own (sleeps belong to the retry controller). -/
theorem runAttempt_trace (env : AttemptEnv) (p : Params) :
    listTasksCount (runAttempt env p).1 = 1 ∧
    sleepCalls (runAttempt env p).1 = [] := by
  have hs := getECSTaskT_shape env.api p.clusterName p.serviceName env.rTask
  rcases hA : getECSTaskT env.api p.clusterName p.serviceName env.rTask
    with ⟨cs1, e | ⟨taskArn, ciArn⟩⟩ <;>
    rw [hA] at hs <;> simp only at hs <;>
    (have hcs1 : listTasksCount cs1 = 1 ∧ sleepCalls cs1 = [] := by
      rcases hs with h | ⟨t, h⟩ <;> subst h <;>
        simp [listTasksCount, sleepCalls, isListTasks, isSleep, List.filter]) <;>
    unfold runAttempt <;>
    simp only [hA, getEC2InstanceIDT_eq, getContainerIDT_eq]
  · simpa using hcs1
  · simp [listTasksCount, sleepCalls, isListTasks, isSleep, List.filter] at hcs1
    rcases getEC2InstanceID env.api p.clusterName ciArn env.rInst with e | instanceID
    · simp [listTasksCount, sleepCalls, isListTasks, isSleep, List.filter,
        List.filter_append, hcs1.1, hcs1.2]
      exact hcs1.2
    · rcases getContainerID env.api p.clusterName taskArn p.containerName
        with e | containerID
      · simp [listTasksCount, sleepCalls, isListTasks, isSleep, List.filter,
          List.filter_append, hcs1.1, hcs1.2]
        exact hcs1.2
      · simp [listTasksCount, sleepCalls, isListTasks, isSleep, List.filter,
          List.filter_append, hcs1.1, hcs1.2]
        exact hcs1.2

/-- The linear scan of `getContainerID` returns exactly the first
name match of the container list, in list order. -/
theorem findContainerID_eq_find (containers : List Container)
    (containerName : String) :
    findContainerID containers containerName =
      (match containers.find? (fun c => c.name == containerName) with
       | some c => Except.ok c.runtimeId
       | none => Except.error (containerNotFoundErr containerName)) := by
  induction containers with
  | nil => rfl
  | cons c rest ih =>
    by_cases h : c.name = containerName
    · simp [findContainerID, List.find?, h]
    · have hb : (c.name == containerName) = false := beq_eq_false_iff_ne.mpr h
      simp [findContainerID, List.find?, h, ih, hb]

/-- The retry controller's behaviour over a set of attempt indices
depends only on the environments of those attempts: no identifier
resolved during an earlier attempt flows into a later one. -/
theorem retryOver_congr (envs envs2 : Nat → AttemptEnv) (p : Params) :
    ∀ idxs : List Nat, (∀ j ∈ idxs, envs j = envs2 j) →
      retryOver envs p idxs = retryOver envs2 p idxs
  | [], _ => rfl
  | [i], h => by
    have hi : envs i = envs2 i := h i (List.mem_singleton.mpr rfl)
    simp only [retryOver, hi]
  | i :: j :: rest, h => by
    have hi : envs i = envs2 i := h i (List.mem_cons_self i (j :: rest))
    have ih := retryOver_congr envs envs2 p (j :: rest)
      (fun k hk => h k (List.mem_cons_of_mem i hk))
    simp only [retryOver, hi, ih]

/-- A successful attempt launched the session with identifiers resolved
by that attempt's own three resolver calls, in sequence. -/
theorem runAttempt_ok_fresh (env : AttemptEnv) (p : Params)
    (taskArn instanceID containerID : String)
    (h : (runAttempt env p).2 = Except.ok (taskArn, instanceID, containerID)) :
    ∃ hostRef,
      getECSTask env.api p.clusterName p.serviceName env.rTask =
        Except.ok (taskArn, hostRef) ∧
      getEC2InstanceID env.api p.clusterName hostRef env.rInst =
        Except.ok instanceID ∧
      getContainerID env.api p.clusterName taskArn p.containerName =
        Except.ok containerID ∧
      env.ssmOk = true := by
  rcases hA : getECSTaskT env.api p.clusterName p.serviceName env.rTask
    with ⟨cs1, rA⟩
  unfold runAttempt at h
  rw [hA] at h
  rcases rA with e | ⟨ta, ci⟩
  · simp at h
  · simp only at h
    rw [getEC2InstanceIDT_eq] at h
    rcases hB : getEC2InstanceID env.api p.clusterName ci env.rInst with e | inst
    · rw [hB] at h
      simp at h
    · rw [hB] at h
      simp only at h
      rw [getContainerIDT_eq] at h
      rcases hC : getContainerID env.api p.clusterName ta p.containerName
        with e | cid
      · rw [hC] at h
        simp at h
      · rw [hC] at h
        rcases hS : env.ssmOk
        · rw [hS] at h
          simp at h
        · rw [hS] at h
          simp only [if_true] at h
          simp only [Except.ok.injEq, Prod.mk.injEq] at h
          obtain ⟨h1, h2, h3⟩ := h
          subst h1; subst h2; subst h3
          refine ⟨ci, ?_, hB, hC, rfl⟩
          unfold getECSTask
          rw [hA]

/-- Reduction of the task resolver once `ListTasks` has returned a
non-empty ARN list: the selected ARN is the one at index
`rTask % length`, and the resolver proceeds to describe exactly it. -/
theorem getECSTaskT_nonempty (api : ECSApi) (c s : String) (r : Nat)
    (arns : List String) (hl : api.listTasks c s = some arns) (hne : arns ≠ []) :
    getECSTaskT api c s r =
      ([Call.listTasks c s,
        Call.describeTasks c (arns.get ⟨r % arns.length,
          Nat.mod_lt _ (List.length_pos_of_ne_nil hne)⟩)],
       match api.describeTasks c (arns.get ⟨r % arns.length,
           Nat.mod_lt _ (List.length_pos_of_ne_nil hne)⟩) with
       | none => Except.error describeTaskErr
       | some [] => Except.error describeTaskErr
       | some (t :: _) =>
           Except.ok (arns.get ⟨r % arns.length,
             Nat.mod_lt _ (List.length_pos_of_ne_nil hne)⟩,
             t.containerInstanceArn)) := by
  have hlen : ¬ arns.length = 0 := fun h0 => hne (List.length_eq_zero.mp h0)
  unfold getECSTaskT
  rw [hl]
  simp only [dif_neg hlen]

/-- C1: for every task container list and caller-supplied container
name, the container resolver returns the runtime identifier of the first
container in list order whose name is exactly string-equal to the
supplied name (`List.find?`); if no name matches, it fails with the
container-not-found error — even when the list is non-empty. -/
theorem C1_container_resolver_first_exact_match (api : ECSApi)
    (clusterName taskArn containerName : String)
    (t : TaskDetail) (rest : List TaskDetail)
    (h : api.describeTasks clusterName taskArn = some (t :: rest)) :
    getContainerID api clusterName taskArn containerName =
      (match t.containers.find? (fun c => c.name == containerName) with
       | some c => Except.ok c.runtimeId
       | none => Except.error (containerNotFoundErr containerName)) := by
  unfold getContainerID getContainerIDT
  rw [h]
  exact findContainerID_eq_find t.containers containerName

/-- C1 witness: among containers named web, app, app (runtime ids rt-9,
rt-1, rt-2) the resolver picks the first "app", ignoring the later
duplicate. -/
theorem C1_witness :
    getContainerID multiApi "prod" "task-1" "app" = Except.ok "rt-1" :=
  Eq.trans
    (C1_container_resolver_first_exact_match multiApi "prod" "task-1" "app"
      demoTaskMulti [] rfl) rfl

/-- C4: whenever the running-task list comes back empty, the attempt
fails with the no-running-tasks error and its trace is exactly the one
`ListTasks` call: no secondary task describe, no host-instance lookup and
no container lookup happen in that attempt. -/
theorem C4_empty_task_list_short_circuits (env : AttemptEnv) (p : Params)
    (h : env.api.listTasks p.clusterName p.serviceName = some []) :
    runAttempt env p =
      ([Call.listTasks p.clusterName p.serviceName],
       Except.error (AttemptError.taskErr (noRunningTasksErr p.serviceName))) ∧
    (∀ c t, Call.describeTasks c t ∉ (runAttempt env p).1) ∧
    (∀ c a, Call.describeContainerInstances c a ∉ (runAttempt env p).1) := by
  have hA : getECSTaskT env.api p.clusterName p.serviceName env.rTask =
      ([Call.listTasks p.clusterName p.serviceName],
       Except.error (noRunningTasksErr p.serviceName)) := by
    unfold getECSTaskT
    rw [h]
    simp
  have hrun : runAttempt env p =
      ([Call.listTasks p.clusterName p.serviceName],
       Except.error (AttemptError.taskErr (noRunningTasksErr p.serviceName))) := by
    unfold runAttempt
    rw [hA]
  refine ⟨hrun, fun c t => ?_, fun c a => ?_⟩ <;> rw [hrun] <;> simp

/-- C4 witness: with the empty-task-list control plane the attempt makes
only the listing call and reports no running tasks. -/
theorem C4_witness :
    runAttempt failEnv demoParams =
      ([Call.listTasks "prod" "web"],
       Except.error (AttemptError.taskErr (noRunningTasksErr "web"))) :=
  (C4_empty_task_list_short_circuits failEnv demoParams rfl).1

/-- C10: in each of the three resolvers, a failed remote API call
(`none`) produces exactly the same error value as the corresponding
empty-result case (`some []`): the no-running-tasks error for the task
resolver, the could-not-describe-container-instance error for the host
resolver, and the could-not-describe-task error for the container
resolver.  Neither the retry controller nor the user can tell a
transport failure from a genuinely empty result. -/
theorem C10_transport_error_equals_empty_result :
    (∀ (api : ECSApi) (c s : String) (r : Nat),
       api.listTasks c s = none ∨ api.listTasks c s = some [] →
       getECSTask api c s r = Except.error (noRunningTasksErr s)) ∧
    (∀ (api : ECSApi) (c arn : String) (r : Nat),
       api.describeContainerInstances c arn = none ∨
         api.describeContainerInstances c arn = some [] →
       getEC2InstanceID api c arn r = Except.error describeContainerInstanceErr) ∧
    (∀ (api : ECSApi) (c t n : String),
       api.describeTasks c t = none ∨ api.describeTasks c t = some [] →
       getContainerID api c t n = Except.error describeTaskErr) := by
  refine ⟨fun api c s r h => ?_, fun api c arn r h => ?_, fun api c t n h => ?_⟩
  · unfold getECSTask getECSTaskT
    rcases h with h | h <;> (rw [h]; try simp)
  · unfold getEC2InstanceID getEC2InstanceIDT
    rcases h with h | h <;> (rw [h]; try simp)
  · unfold getContainerID getContainerIDT
    rcases h with h | h <;> rw [h]

/-- C10 witness: concrete transport-failure and empty-result runs of all
three resolvers, pairwise yielding the same errors. -/
theorem C10_witness :
    getECSTask failApi "c" "s" 0 = Except.error (noRunningTasksErr "s") ∧
    getECSTask emptyApi "c" "s" 0 = Except.error (noRunningTasksErr "s") ∧
    getEC2InstanceID failApi "c" "a" 0 =
      Except.error describeContainerInstanceErr ∧
    getEC2InstanceID emptyApi "c" "a" 0 =
      Except.error describeContainerInstanceErr ∧
    getContainerID failApi "c" "t" "n" = Except.error describeTaskErr ∧
    getContainerID emptyApi "c" "t" "n" = Except.error describeTaskErr :=
  ⟨C10_transport_error_equals_empty_result.1 failApi "c" "s" 0 (Or.inl rfl),
   C10_transport_error_equals_empty_result.1 emptyApi "c" "s" 0 (Or.inr rfl),
   C10_transport_error_equals_empty_result.2.1 failApi "c" "a" 0 (Or.inl rfl),
   C10_transport_error_equals_empty_result.2.1 emptyApi "c" "a" 0 (Or.inr rfl),
   C10_transport_error_equals_empty_result.2.2 failApi "c" "t" "n" (Or.inl rfl),
   C10_transport_error_equals_empty_result.2.2 emptyApi "c" "t" "n" (Or.inr rfl)⟩

/-- C5: for every non-empty running-task list the task resolver selects
the task at the injected random index (`rTask % length`, the exact range
of `rand.Intn`, re-drawn on each call), describes exactly that task, the
selected task is always one of the listed tasks, any successful result
carries the selected ARN — and when exactly one task is listed, that
task is selected whatever the random draw. -/
theorem C5_random_selection_degenerates_at_one (api : ECSApi)
    (clusterName serviceName : String) (rTask : Nat) (arns : List String)
    (hl : api.listTasks clusterName serviceName = some arns) (hne : arns ≠ []) :
    (getECSTaskT api clusterName serviceName rTask).1 =
      [Call.listTasks clusterName serviceName,
       Call.describeTasks clusterName
         (arns.get ⟨rTask % arns.length,
           Nat.mod_lt _ (List.length_pos_of_ne_nil hne)⟩)] ∧
    arns.get ⟨rTask % arns.length,
      Nat.mod_lt _ (List.length_pos_of_ne_nil hne)⟩ ∈ arns ∧
    (∀ taskArn hostRef,
      getECSTask api clusterName serviceName rTask =
        Except.ok (taskArn, hostRef) →
      taskArn = arns.get ⟨rTask % arns.length,
        Nat.mod_lt _ (List.length_pos_of_ne_nil hne)⟩) ∧
    (∀ a, arns = [a] →
      (getECSTaskT api clusterName serviceName rTask).1 =
        [Call.listTasks clusterName serviceName,
         Call.describeTasks clusterName a]) := by
  have hred := getECSTaskT_nonempty api clusterName serviceName rTask arns hl hne
  refine ⟨?_, ?_, ?_, ?_⟩
  · rw [hred]
  · exact List.get_mem arns _ _
  · intro taskArn hostRef hok
    unfold getECSTask at hok
    rw [hred] at hok
    simp only at hok
    rcases hd : api.describeTasks clusterName
        (arns.get ⟨rTask % arns.length,
          Nat.mod_lt _ (List.length_pos_of_ne_nil hne)⟩)
      with _ | (_ | ⟨t, ts⟩) <;> rw [hd] at hok <;> simp at hok
    exact hok.1.symm
  · intro a ha
    subst ha
    rw [hred]
    simp [Nat.mod_one]

/-- C5 witness: a single listed task is selected and described even for
an arbitrary random draw (here 5). -/
theorem C5_witness :
    (getECSTaskT demoApi "prod" "web" 5).1 =
      [Call.listTasks "prod" "web", Call.describeTasks "prod" "task-1"] :=
  (C5_random_selection_degenerates_at_one demoApi "prod" "web" 5 ["task-1"]
    rfl (by decide)).2.2.2 "task-1" rfl

/-- C8: the host resolver fails with its (single) zero-results error —
the error the spec labels NoHostInstances — when the control plane
returns no host instances; with one or more instances it returns the
EC2 instance id of the instance at the random index `rInst % length`,
which is always one of the returned instances. -/
theorem C8_host_resolver_zero_and_random (api : ECSApi)
    (clusterName arn : String) (rInst : Nat) :
    (api.describeContainerInstances clusterName arn = some [] →
      getEC2InstanceID api clusterName arn rInst =
        Except.error describeContainerInstanceErr) ∧
    (∀ insts, api.describeContainerInstances clusterName arn = some insts →
      ∀ (hne : insts ≠ []),
      getEC2InstanceID api clusterName arn rInst =
        Except.ok ((insts.get ⟨rInst % insts.length,
          Nat.mod_lt _ (List.length_pos_of_ne_nil hne)⟩).ec2InstanceId) ∧
      insts.get ⟨rInst % insts.length,
        Nat.mod_lt _ (List.length_pos_of_ne_nil hne)⟩ ∈ insts) := by
  constructor
  · intro h
    unfold getEC2InstanceID getEC2InstanceIDT
    rw [h]
    simp
  · intro insts hs hne
    have hlen : ¬ insts.length = 0 := fun h0 => hne (List.length_eq_zero.mp h0)
    constructor
    · unfold getEC2InstanceID getEC2InstanceIDT
      rw [hs]
      simp only [dif_neg hlen, if_neg hlen]
    · exact List.get_mem insts _ _

/-- C8 witness: one host instance, returned directly. -/
theorem C8_witness :
    getEC2InstanceID demoApi "prod" "ci-arn-1" 0 = Except.ok "i-0abc" :=
  Eq.trans
    (((C8_host_resolver_zero_and_random demoApi "prod" "ci-arn-1" 0).2
      [{ ec2InstanceId := "i-0abc" }] rfl (by decide)).1) rfl

/-- C9: after selecting from a non-empty task list, the resolver
describes the selected task; if that secondary lookup returns no data
(transport failure or empty) it fails with the describe error, and
otherwise it returns the pair of the selected task's ARN and the host
reference (`ContainerInstanceArn`) of the first described task. -/
theorem C9_secondary_describe (api : ECSApi) (clusterName serviceName : String)
    (rTask : Nat) (arns : List String)
    (hl : api.listTasks clusterName serviceName = some arns) (hne : arns ≠ []) :
    (api.describeTasks clusterName
        (arns.get ⟨rTask % arns.length,
          Nat.mod_lt _ (List.length_pos_of_ne_nil hne)⟩) = none →
      getECSTask api clusterName serviceName rTask =
        Except.error describeTaskErr) ∧
    (api.describeTasks clusterName
        (arns.get ⟨rTask % arns.length,
          Nat.mod_lt _ (List.length_pos_of_ne_nil hne)⟩) = some [] →
      getECSTask api clusterName serviceName rTask =
        Except.error describeTaskErr) ∧
    (∀ t ts, api.describeTasks clusterName
        (arns.get ⟨rTask % arns.length,
          Nat.mod_lt _ (List.length_pos_of_ne_nil hne)⟩) = some (t :: ts) →
      getECSTask api clusterName serviceName rTask =
        Except.ok (arns.get ⟨rTask % arns.length,
          Nat.mod_lt _ (List.length_pos_of_ne_nil hne)⟩,
          t.containerInstanceArn)) := by
  have hred := getECSTaskT_nonempty api clusterName serviceName rTask arns hl hne
  refine ⟨fun hd => ?_, fun hd => ?_, fun t ts hd => ?_⟩ <;>
    unfold getECSTask <;> rw [hred] <;> simp only <;> rw [hd]

/-- C9 witness: the single listed task is described and its host
reference returned. -/
theorem C9_witness :
    getECSTask demoApi "prod" "web" 0 = Except.ok ("task-1", "ci-arn-1") :=
  Eq.trans
    ((C9_secondary_describe demoApi "prod" "web" 0 ["task-1"] rfl
        (by decide)).2.2
      { containerInstanceArn := "ci-arn-1",
        containers := [{ name := "app", runtimeId := "rt-123" }] } [] rfl) rfl

/-- C3 (failing-input evaluation): `flag.String` never returns a nil
pointer, and `main` hands that pointer straight to `startSSMSession`, so
the nil guard there always fires and `--profile` is appended with the
flag's value even when the caller supplied no profile (value "").  In a
run with no `--profile` flag the launched command still contains
"--profile" followed by the empty string, contradicting the claim that
the command then contains no `--profile` argument. -/
theorem C3_profile_appended_even_when_unset :
    Call.startSession (ssmCommand "i-0abc" "rt-123" (some "") mainRegion) ∈
      (runMain (fun _ => demoEnv) "prod" "web" "app" "").1 ∧
    "--profile" ∈ ssmCommand "i-0abc" "rt-123" (some "") mainRegion ∧
    ssmCommand "i-0abc" "rt-123" (some "") mainRegion =
      ["aws", "ssm", "start-session", "--target", "i-0abc",
       "--document-name", "AWS-StartInteractiveCommand",
       "--parameters", ssmParameters "rt-123",
       "--region", "eu-west-2", "--profile", ""] := by
  refine ⟨?_, ?_, ?_⟩ <;> decide

/-- C2: when every attempt fails (resolution or session launch), the
retry controller runs exactly three attempts (one `ListTasks` call
each), sleeps the 5-second backoff exactly twice — between attempts,
never after the final one (the final attempt's trace `t2` contains no
sleep and ends the run) — and terminates fatally. -/
theorem C2_exhausted_retries_three_attempts_two_sleeps
    (envs : Nat → AttemptEnv) (p : Params)
    (h : ∀ i, i < maxRetries → ∃ e, (runAttempt (envs i) p).2 = Except.error e) :
    ∃ t0 t1 t2 m,
      runRetryLoop envs p =
        (t0 ++ Call.sleep backoffSeconds ::
          (t1 ++ Call.sleep backoffSeconds :: t2), MainOutcome.fatal m) ∧
      listTasksCount t0 = 1 ∧ listTasksCount t1 = 1 ∧ listTasksCount t2 = 1 ∧
      sleepCalls t0 = [] ∧ sleepCalls t1 = [] ∧ sleepCalls t2 = [] := by
  obtain ⟨e0, h0⟩ := h 0 (by decide)
  obtain ⟨e1, h1⟩ := h 1 (by decide)
  obtain ⟨e2, h2⟩ := h 2 (by decide)
  have ht0 := runAttempt_trace (envs 0) p
  have ht1 := runAttempt_trace (envs 1) p
  have ht2 := runAttempt_trace (envs 2) p
  rcases hA0 : runAttempt (envs 0) p with ⟨t0, r0⟩
  rcases hA1 : runAttempt (envs 1) p with ⟨t1, r1⟩
  rcases hA2 : runAttempt (envs 2) p with ⟨t2, r2⟩
  rw [hA0] at h0 ht0
  rw [hA1] at h1 ht1
  rw [hA2] at h2 ht2
  simp only at h0 h1 h2 ht0 ht1 ht2
  subst h0; subst h1; subst h2
  have hrange : List.range maxRetries = [0, 1, 2] := rfl
  refine ⟨t0, t1, t2, finalFatalMsg e2, ?_,
    ht0.1, ht1.1, ht2.1, ht0.2, ht1.2, ht2.2⟩
  unfold runRetryLoop
  rw [hrange]
  simp only [retryOver, hA0, hA1, hA2]

/-- C2 witness: a control plane with an always-empty task list exhausts
all three attempts. -/
theorem C2_witness :
    ∃ t0 t1 t2 m,
      runRetryLoop (fun _ => failEnv) demoParams =
        (t0 ++ Call.sleep backoffSeconds ::
          (t1 ++ Call.sleep backoffSeconds :: t2), MainOutcome.fatal m) ∧
      listTasksCount t0 = 1 ∧ listTasksCount t1 = 1 ∧ listTasksCount t2 = 1 ∧
      sleepCalls t0 = [] ∧ sleepCalls t1 = [] ∧ sleepCalls t2 = [] :=
  C2_exhausted_retries_three_attempts_two_sleeps (fun _ => failEnv) demoParams
    (fun _ _ =>
      ⟨AttemptError.taskErr (noRunningTasksErr demoParams.serviceName), rfl⟩)

/-- C6: when the first two attempts fail and the third succeeds through
the session launch, the run ends in success and exactly two backoff
sleeps (of 5 seconds each) are observed. -/
theorem C6_two_failures_then_success (envs : Nat → AttemptEnv) (p : Params)
    (h0 : ∃ e, (runAttempt (envs 0) p).2 = Except.error e)
    (h1 : ∃ e, (runAttempt (envs 1) p).2 = Except.error e)
    (h2 : ∃ v, (runAttempt (envs 2) p).2 = Except.ok v) :
    (runRetryLoop envs p).2 = MainOutcome.success ∧
    sleepCalls (runRetryLoop envs p).1 =
      [Call.sleep backoffSeconds, Call.sleep backoffSeconds] := by
  obtain ⟨e0, he0⟩ := h0
  obtain ⟨e1, he1⟩ := h1
  obtain ⟨v2, hv2⟩ := h2
  have ht0 := runAttempt_trace (envs 0) p
  have ht1 := runAttempt_trace (envs 1) p
  have ht2 := runAttempt_trace (envs 2) p
  rcases hA0 : runAttempt (envs 0) p with ⟨t0, r0⟩
  rcases hA1 : runAttempt (envs 1) p with ⟨t1, r1⟩
  rcases hA2 : runAttempt (envs 2) p with ⟨t2, r2⟩
  rw [hA0] at he0 ht0
  rw [hA1] at he1 ht1
  rw [hA2] at hv2 ht2
  simp only at he0 he1 hv2 ht0 ht1 ht2
  subst he0; subst he1; subst hv2
  have hrange : List.range maxRetries = [0, 1, 2] := rfl
  have hloop : runRetryLoop envs p =
      (t0 ++ Call.sleep backoffSeconds ::
        (t1 ++ Call.sleep backoffSeconds :: t2), MainOutcome.success) := by
    unfold runRetryLoop
    rw [hrange]
    simp only [retryOver, hA0, hA1, hA2]
  rw [hloop]
  have f0 : List.filter isSleep t0 = [] := ht0.2
  have f1 : List.filter isSleep t1 = [] := ht1.2
  have f2 : List.filter isSleep t2 = [] := ht2.2
  simp [sleepCalls, isSleep, List.filter, List.filter_append, f0, f1, f2]

/-- C6 witness: empty task lists on attempts 0 and 1, a healthy control
plane and session on attempt 2. -/
theorem C6_witness :
    (runRetryLoop mixedEnvs demoParams).2 = MainOutcome.success ∧
    sleepCalls (runRetryLoop mixedEnvs demoParams).1 =
      [Call.sleep backoffSeconds, Call.sleep backoffSeconds] :=
  C6_two_failures_then_success mixedEnvs demoParams
    ⟨AttemptError.taskErr (noRunningTasksErr demoParams.serviceName), rfl⟩
    ⟨AttemptError.taskErr (noRunningTasksErr demoParams.serviceName), rfl⟩
    ⟨("task-1", "i-0abc", "rt-123"), rfl⟩

/-- C7: (i) the retry controller's behaviour over any attempt indices
depends only on those attempts' own environments — no task, host or
container identifier resolved in an earlier attempt can be reused later,
as later attempts take nothing from earlier ones; and (ii) every
attempt that reaches the session launch resolved its task, host and
container identifiers by its own fresh `getECSTask`, `getEC2InstanceID`
and `getContainerID` calls, in sequence. -/
theorem C7_full_reresolution_each_attempt :
    (∀ (envs envs2 : Nat → AttemptEnv) (p : Params) (idxs : List Nat),
       (∀ j ∈ idxs, envs j = envs2 j) →
       retryOver envs p idxs = retryOver envs2 p idxs) ∧
    (∀ (env : AttemptEnv) (p : Params) (taskArn instanceID containerID : String),
       (runAttempt env p).2 = Except.ok (taskArn, instanceID, containerID) →
       ∃ hostRef,
         getECSTask env.api p.clusterName p.serviceName env.rTask =
           Except.ok (taskArn, hostRef) ∧
         getEC2InstanceID env.api p.clusterName hostRef env.rInst =
           Except.ok instanceID ∧
         getContainerID env.api p.clusterName taskArn p.containerName =
           Except.ok containerID ∧
         env.ssmOk = true) :=
  ⟨fun envs envs2 p idxs h => retryOver_congr envs envs2 p idxs h,
   fun env p taskArn instanceID containerID h =>
     runAttempt_ok_fresh env p taskArn instanceID containerID h⟩

/-- C7 witness: environments agreeing on attempts 0-2 produce identical
runs, and the demo attempt's launched identifiers are exactly its own
resolvers' outputs. -/
theorem C7_witness :
    retryOver (fun _ => demoEnv) demoParams [0, 1, 2] =
      retryOver altEnvs demoParams [0, 1, 2] ∧
    ∃ hostRef,
      getECSTask demoEnv.api demoParams.clusterName demoParams.serviceName
          demoEnv.rTask = Except.ok ("task-1", hostRef) ∧
      getEC2InstanceID demoEnv.api demoParams.clusterName hostRef
          demoEnv.rInst = Except.ok "i-0abc" ∧
      getContainerID demoEnv.api demoParams.clusterName "task-1"
          demoParams.containerName = Except.ok "rt-123" ∧
      demoEnv.ssmOk = true :=
  ⟨C7_full_reresolution_each_attempt.1 (fun _ => demoEnv) altEnvs demoParams
      [0, 1, 2]
      (by intro j hj; simp at hj; rcases hj with rfl | rfl | rfl <;> rfl),
   C7_full_reresolution_each_attempt.2 demoEnv demoParams
      "task-1" "i-0abc" "rt-123" rfl⟩

end DockerConnector
